import Mathlib

/-!
Verification of the SOUP (Secure Offline Update Protocol) subsystem:
a shallow embedding of

  - backend/utils/soup_builder.py   (SOUPBuilder.create_package),
  - backend/core/soup_handlers.py   (SOUPHandler: extract_update,
    validate_checksum, verify_signature),
  - backend/routes/soup.py          (apply_soup_update, save_update_history,
    load_update_history, rollback_update)

together with theorems settling the specification claims about it.

Modelling conventions:
  - a byte string is a `List Nat`;
  - files on disk and zip-archive members are `FileEntry` (path plus bytes);
  - the cryptography library primitives (Fernet, RSA-PSS, SHA-512) are
    idealized symbolically: each is an executable injective tagging function
    that preserves exactly the properties the pipeline relies on
    (determinism, ciphertext differs from plaintext, a signature verifies
    against a public key and a byte string iff it was produced by the
    matching private key over exactly that byte string);
  - Python exceptions are reified in the result type: an `HTTPException`
    raised inside the `try` block and re-raised by the
    `except HTTPException: raise` arm becomes `Outcome.reject`, and a
    generic exception caught by the `except Exception` arm (which appends a
    failed history record and then raises a 500) becomes `Outcome.fail500`.
    Exception rendering (`str(e)`) is approximated by the exception name;
  - the zip format and the JSON rendering of the manifest are modelled by
    explicit executable length-prefixed encoders with matching decoders;
  - archive members are flat files under the category directories, as the
    builder produces them; directory members inside categories are out of
    scope.
-/

/-- A byte string. -/
abbrev Bytes := List Nat

/-- A file: a path (relative, slash-separated, as the zip stores it) and
its contents. -/
structure FileEntry where
  path : String
  data : Bytes
deriving Repr, DecidableEq

/-- Python `s.endswith(p)` on strings, via the underlying char list. -/
def strEndsWith (s p : String) : Bool :=
  decide (p.data.length ≤ s.data.length) &&
    (s.data.drop (s.data.length - p.data.length) == p.data)

/-- Python `s.startswith(p)` on strings, via the underlying char list. -/
def strStartsWith (s p : String) : Bool :=
  s.data.take p.data.length == p.data

/-- Drop the first n characters of a string (used for `file.name` of a
path such as `models/x.pkl`). -/
def strDrop (s : String) (n : Nat) : String :=
  String.mk (s.data.drop n)

/-! ## Idealized cryptography primitives

`hashlib.sha512`, RSA-PSS sign/verify from `cryptography.hazmat`, and
`cryptography.fernet.Fernet` are library code, modelled symbolically. Key
material is a `Nat`; a keypair matches iff private and public component are
the same `Nat`. -/

/-- Model of `hashlib.sha512(...).hexdigest()`: a deterministic injective
digest of the input bytes (tag 512 then the bytes). Builder and verifier
call the same function, as in the source. -/
def sha512Hash (b : Bytes) : Bytes := 512 :: b

/-- Model of `private_key.sign(data, PSS(MGF1(SHA256), MAX_LENGTH), SHA256)`:
the signature determines the signing key and the exact signed bytes. -/
def rsaSign (privKey : Nat) (data : Bytes) : Bytes := privKey :: data

/-- Model of `public_key.verify(signature, data, PSS(...), SHA256)` wrapped
in `SOUPHandler.verify_signature`'s try/except: returns true iff the
signature was produced by the matching private key over exactly `data`. -/
def rsaVerify (pubKey : Nat) (signature : Bytes) (data : Bytes) : Bool :=
  signature == pubKey :: data

/-- Model of `Fernet(key).encrypt(data)`: a self-contained token tagged with
the Fernet version byte 128 and the key; always differs from the plaintext. -/
def fernetEncrypt (key : Nat) (data : Bytes) : Bytes := 128 :: key :: data

/-- Model of `Fernet(key).decrypt(token)`: fail-closed (`InvalidToken`,
here `none`) unless the token was produced under the same key. -/
def fernetDecrypt (key : Nat) (token : Bytes) : Option Bytes :=
  match token with
  | 128 :: k :: rest => if k = key then some rest else none
  | _ => none

/-! ## Manifest and its JSON rendering

`manifest = {version, created_at, files: [{path, sha512}]}` as built by
`create_package` and parsed by `json.load` in `apply_soup_update`. The JSON
byte rendering is modelled by an injective length-prefixed encoder with a
matching decoder (decoder failure plays the role of `JSONDecodeError`). -/

/-- One entry of `manifest["files"]`: `{path, sha512}`. -/
structure MEntry where
  path : String
  sha512 : Bytes
deriving Repr, DecidableEq

/-- The manifest: `{version, created_at, files}`. -/
structure Manifest where
  version : String
  createdAt : String
  files : List MEntry
deriving Repr, DecidableEq

/-- Char codes of a string. -/
def strToBytes (s : String) : Bytes := s.data.map Char.toNat

/-- Inverse of strToBytes on valid char codes. -/
def bytesToStr (b : Bytes) : String := String.mk (b.map Char.ofNat)

/-- Length-prefixed chunk. -/
def encodeChunk (b : Bytes) : Bytes := b.length :: b

/-- Read one length-prefixed chunk, returning it and the rest. -/
def decodeChunk (b : Bytes) : Option (Bytes × Bytes) :=
  match b with
  | [] => none
  | n :: rest =>
    if n ≤ rest.length then some (rest.take n, rest.drop n) else none

/-- Byte rendering of one manifest file entry. -/
def encodeMEntry (e : MEntry) : Bytes :=
  encodeChunk (strToBytes e.path) ++ encodeChunk e.sha512

/-- Byte rendering of a list of manifest file entries. -/
def encodeMEntryList : List MEntry → Bytes
  | [] => []
  | e :: es => encodeMEntry e ++ encodeMEntryList es

/-- Byte rendering of the manifest (the contents of manifest.json as
written by `json.dumps`). -/
def encodeManifest (m : Manifest) : Bytes :=
  encodeChunk (strToBytes m.version) ++ encodeChunk (strToBytes m.createdAt)
    ++ m.files.length :: encodeMEntryList m.files

/-- Decode exactly n manifest entries, returning the leftover bytes. -/
def decodeMEntries : Nat → Bytes → Option (List MEntry × Bytes)
  | 0, b => some ([], b)
  | Nat.succ n, b =>
    match decodeChunk b with
    | none => none
    | some (pb, r1) =>
      match decodeChunk r1 with
      | none => none
      | some (db, r2) =>
        match decodeMEntries n r2 with
        | none => none
        | some (es, r3) => some (⟨bytesToStr pb, db⟩ :: es, r3)

/-- Parse manifest.json bytes (`json.load`); `none` models
`json.JSONDecodeError`. -/
def decodeManifest (b : Bytes) : Option Manifest :=
  match decodeChunk b with
  | none => none
  | some (vb, r1) =>
    match decodeChunk r1 with
    | none => none
    | some (cb, r2) =>
      match r2 with
      | [] => none
      | n :: r3 =>
        match decodeMEntries n r3 with
        | some (es, []) => some ⟨bytesToStr vb, bytesToStr cb, es⟩
        | _ => none

/-! ## Zip archive model

`zipfile.ZipFile(..., 'w')` over a staged tree, and
`zip_ref.extractall(output_dir)` on the consumer side: an archive is a list
of file members; its byte rendering is an injective length-prefixed
encoding. Decoder failure plays the role of `zipfile.BadZipFile`. -/

/-- Byte rendering of one archive member. -/
def encodeEntry (e : FileEntry) : Bytes :=
  encodeChunk (strToBytes e.path) ++ encodeChunk e.data

/-- Byte rendering of the member list. -/
def encodeEntryList : List FileEntry → Bytes
  | [] => []
  | e :: es => encodeEntry e ++ encodeEntryList es

/-- The zip bytes of a staged tree. -/
def zipArchive (entries : List FileEntry) : Bytes :=
  entries.length :: encodeEntryList entries

/-- Decode exactly n archive members, returning the leftover bytes. -/
def decodeEntries : Nat → Bytes → Option (List FileEntry × Bytes)
  | 0, b => some ([], b)
  | Nat.succ n, b =>
    match decodeChunk b with
    | none => none
    | some (pb, r1) =>
      match decodeChunk r1 with
      | none => none
      | some (db, r2) =>
        match decodeEntries n r2 with
        | none => none
        | some (es, r3) => some (⟨bytesToStr pb, db⟩ :: es, r3)

/-- Unpack zip bytes into the member list (`extractall`); `none` models
`zipfile.BadZipFile`. -/
def unzipArchive (b : Bytes) : Option (List FileEntry) :=
  match b with
  | [] => none
  | n :: rest =>
    match decodeEntries n rest with
    | some (es, []) => some es
    | _ => none

/-! ## Package Builder (`SOUPBuilder.create_package`)

Inputs: a version string, the build timestamp (`datetime.now().isoformat()`),
and per-category optional source directories. An absent option covers both
`None` and a non-existent path, since `if models_dir and models_dir.exists()`
skips the category in both cases.

Faithfulness note on the models category: line 52 of soup_builder.py is
  for file in models_dir.glob("*.pkl") + models_dir.glob("*.tflite"):
and `Path.glob` returns a generator, so `+` raises `TypeError` the moment
the models branch is entered; `create_package` therefore aborts whenever a
models directory is present, before staging anything. -/

/-- The arguments of `create_package`. -/
structure BuilderInput where
  version : String
  createdAt : String
  modelsDir : Option (List FileEntry)
  rulesDir : Option (List FileEntry)
  threatDir : Option (List FileEntry)
deriving Repr, DecidableEq

/-- Result of `create_package`: a .soup artifact (encrypted archive bytes),
the detached signature file bytes, and the artifact file name — or the
`TypeError` raised by the generator addition on the models branch. -/
inductive BuildResult where
  | ok (soupData : Bytes) (signature : Bytes) (artifactName : String)
  | typeError
deriving Repr, DecidableEq

/-- The staged temporary tree at the moment the zip is written: the rules
files matching `rules_dir.glob("*.json")` copied to `rules/...`, the threat
intel files matching `threat_intel_dir.glob("*.json")` copied to
`threat_intel/...`, and `manifest.json`; `signature.sig` is written to the
temp directory only after this zip exists and is never re-archived. This
helper is reached only when no models directory is present (see the
faithfulness note above). -/
def stageTree (inp : BuilderInput) : List FileEntry :=
  let rulesFiles := (inp.rulesDir.getD []).filter (fun f => strEndsWith f.path ".json")
  let threatFiles := (inp.threatDir.getD []).filter (fun f => strEndsWith f.path ".json")
  let manifest : Manifest :=
    ⟨inp.version, inp.createdAt,
      rulesFiles.map (fun f => ⟨"rules/" ++ f.path, sha512Hash f.data⟩) ++
      threatFiles.map (fun f => ⟨"threat_intel/" ++ f.path, sha512Hash f.data⟩)⟩
  rulesFiles.map (fun f => FileEntry.mk ("rules/" ++ f.path) f.data) ++
    threatFiles.map (fun f => FileEntry.mk ("threat_intel/" ++ f.path) f.data) ++
    [⟨"manifest.json", encodeManifest manifest⟩]

/-- `SOUPBuilder.create_package`: stage, write manifest, zip, sign the zip
bytes, write signature.sig into the (already-zipped) temp tree, encrypt the
zip bytes with the shared symmetric key, emit the artifact and the detached
signature file. -/
def createPackage (privKey : Nat) (encKey : Nat) (inp : BuilderInput) : BuildResult :=
  match inp.modelsDir with
  | some _ => .typeError
  | none =>
    let zipData := zipArchive (stageTree inp)
    let signature := rsaSign privKey zipData
    .ok (fernetEncrypt encKey zipData) signature
      ("quorum-update-" ++ inp.version ++ ".soup")

/-! ## Update history store and verifier-side state

`routes/soup.py`: the history file holds a JSON list of records of three
shapes — successful updates `{timestamp, version, package, status:
"success", summary}`, failed updates `{timestamp, package, status:
"failed", error}` (no version key), and rollbacks `{timestamp, action:
"rollback", target_version, status: "simulated"}` (no version key). -/

/-- Per-category applied-file summary. -/
structure UpdateSummary where
  models : List String
  rules : List String
  threatIntel : List String
deriving Repr, DecidableEq

/-- One record of the update history file. -/
inductive HistRecord where
  | update (timestamp : String) (version : String) (package : String)
      (status : String) (summary : UpdateSummary)
  | failedUpdate (timestamp : String) (package : String) (error : String)
  | rollback (timestamp : String) (targetVersion : String) (status : String)
deriving Repr, DecidableEq

/-- The stored `status` field of a record. -/
def HistRecord.statusOf : HistRecord → String
  | .update _ _ _ s _ => s
  | .failedUpdate _ _ _ => "failed"
  | .rollback _ _ s => s

/-- `record.get("version")`: only successful update records carry a
`version` key (failed records omit it; rollback records store
`target_version` instead). -/
def HistRecord.versionOf : HistRecord → Option String
  | .update _ v _ _ _ => some v
  | .failedUpdate _ _ _ => none
  | .rollback _ _ _ => none

/-- `save_update_history`: `load_update_history()` returns the stored list,
the new record is appended, and the whole file is rewritten. With the file
contents as the state, one call maps the list h to h with the record at the
end. -/
def saveUpdateHistory (history : List HistRecord) (rec : HistRecord) : List HistRecord :=
  history ++ [rec]

/-- The verifier-side system state: the three live category directories
(MODELS_DIR, backend/data/rules, backend/data/threat_intel) as name-to-bytes
file lists, the stored update history, and the contents of the public key
file routes/quorum_public.pem when it exists. -/
structure SysState where
  modelsLive : List FileEntry
  rulesLive : List FileEntry
  threatLive : List FileEntry
  history : List HistRecord
  publicKey : Option Nat
deriving Repr, DecidableEq

/-- Which scratch files remain on disk after the call: the uploaded
artifact saved at UPDATES_DIR/filename, and the extraction tree. -/
structure TempFiles where
  tempPackage : Bool
  extractDir : Bool
deriving Repr, DecidableEq

/-- How `apply_soup_update` returns to its caller: a 200 success body, an
`HTTPException` re-raised by the `except HTTPException: raise` arm (no
history record written), or a generic exception turned by the
`except Exception` arm into a failed history record plus a 500. -/
inductive Outcome where
  | ok (version : String) (summary : UpdateSummary)
  | reject (status : Nat) (detail : String)
  | fail500 (error : String)
deriving Repr, DecidableEq

/-- Everything observable about one `apply_soup_update` call: the response
or exception, the new system state, the scratch files left behind, and the
arguments of every `verify_signature` call made (data bytes, signature). -/
structure ApplyResult where
  outcome : Outcome
  state : SysState
  temp : TempFiles
  sigCalls : List (Bytes × Bytes)
deriving Repr, DecidableEq

/-- Look a path up in an extracted tree (`(extract_dir / p).exists()` and
reading it). -/
def lookupFile (entries : List FileEntry) (p : String) : Option Bytes :=
  match entries.find? (fun e => e.path == p) with
  | some e => some e.data
  | none => none

/-- The checksum loop of Step 3: for each manifest entry in order, the file
must exist and `validate_checksum` (recompute sha512, compare) must hold;
returns the detail string of the first `HTTPException` raised, if any. -/
def checksumLoop (entries : List FileEntry) : List MEntry → Option String
  | [] => none
  | fi :: rest =>
    match lookupFile entries fi.path with
    | none => some ("Missing file: " ++ fi.path)
    | some d =>
      if sha512Hash d = fi.sha512 then checksumLoop entries rest
      else some ("Checksum mismatch: " ++ fi.path)

/-- The members of one category subtree of the extracted tree, with the
category prefix stripped (`model_file.name`), in archive order
(`iterdir`). -/
def entriesUnder (dir : String) (entries : List FileEntry) : List FileEntry :=
  entries.filterMap (fun e =>
    if strStartsWith e.path (dir ++ "/") then
      some ⟨strDrop e.path (dir.length + 1), e.data⟩
    else none)

/-- `shutil.copy2` into a live directory: overwrite the same-named file or
add the file at the end. -/
def upsert (dir : List FileEntry) (name : String) (data : Bytes) : List FileEntry :=
  if dir.any (fun e => e.path == name) then
    dir.map (fun e => if e.path == name then ⟨name, data⟩ else e)
  else dir ++ [⟨name, data⟩]

/-- Copy every file of a category subtree into a live directory, in order. -/
def copyAll (dir : List FileEntry) : List FileEntry → List FileEntry
  | [] => dir
  | f :: fs => copyAll (upsert dir f.path f.data) fs

/-- The detail of the 500 raised when routes/quorum_public.pem is absent. -/
def pubKeyMissingDetail : String :=
  "Security alert: SOUP public key quorum_public.pem not found. Cannot verify update signature."

/-- `apply_soup_update` (routes/soup.py): the whole endpoint body, as one
function of the system state, the handler symmetric key, the uploaded file
name and bytes, and the current time. Step by step:
extension check; save the upload; make the extraction directory;
`extract_update` (Fernet decrypt, then unzip — `InvalidToken` or
`BadZipFile` are generic exceptions, so they are recorded as failed);
manifest presence and `json.load`; the checksum loop; signature.sig
presence; public key presence (a 500 `HTTPException`, so nothing is
recorded); `verify_signature` called on the bytes of the uploaded
(still encrypted) artifact file `temp_package`; the per-category copy loop;
the success record; cleanup of the scratch files (success path only). -/
def applySoupUpdate (st : SysState) (symKey : Nat) (filename : String)
    (fileBytes : Bytes) (now : String) : ApplyResult :=
  if strEndsWith filename ".soup" = false then
    ⟨.reject 400 "Invalid file format. Expected .soup file", st, ⟨false, false⟩, []⟩
  else
    match fernetDecrypt symKey fileBytes with
    | none =>
      ⟨.fail500 "InvalidToken",
        { st with history := saveUpdateHistory st.history (.failedUpdate now filename "InvalidToken") },
        ⟨true, true⟩, []⟩
    | some zipBytes =>
      match unzipArchive zipBytes with
      | none =>
        ⟨.fail500 "BadZipFile",
          { st with history := saveUpdateHistory st.history (.failedUpdate now filename "BadZipFile") },
          ⟨true, true⟩, []⟩
      | some entries =>
        match lookupFile entries "manifest.json" with
        | none =>
          ⟨.reject 400 "Invalid SOUP package: manifest.json not found", st, ⟨true, true⟩, []⟩
        | some manifestBytes =>
          match decodeManifest manifestBytes with
          | none =>
            ⟨.fail500 "JSONDecodeError",
              { st with history := saveUpdateHistory st.history (.failedUpdate now filename "JSONDecodeError") },
              ⟨true, true⟩, []⟩
          | some manifest =>
            match checksumLoop entries manifest.files with
            | some detail => ⟨.reject 400 detail, st, ⟨true, true⟩, []⟩
            | none =>
              match lookupFile entries "signature.sig" with
              | none => ⟨.reject 400 "Missing signature file", st, ⟨true, true⟩, []⟩
              | some signature =>
                match st.publicKey with
                | none => ⟨.reject 500 pubKeyMissingDetail, st, ⟨true, true⟩, []⟩
                | some pub =>
                  if rsaVerify pub signature fileBytes = false then
                    ⟨.reject 400 "Invalid SOUP package signature", st, ⟨true, true⟩,
                      [(fileBytes, signature)]⟩
                  else
                    let mFiles := entriesUnder "models" entries
                    let rFiles := entriesUnder "rules" entries
                    let tFiles := entriesUnder "threat_intel" entries
                    let summary : UpdateSummary :=
                      ⟨mFiles.map (fun f => f.path), rFiles.map (fun f => f.path),
                        tFiles.map (fun f => f.path)⟩
                    ⟨.ok manifest.version summary,
                      { st with
                          modelsLive := copyAll st.modelsLive mFiles,
                          rulesLive := copyAll st.rulesLive rFiles,
                          threatLive := copyAll st.threatLive tFiles,
                          history := saveUpdateHistory st.history
                            (.update now manifest.version filename "success" summary) },
                      ⟨false, false⟩, [(fileBytes, signature)]⟩

/-- How `rollback_update` returns: the 200 body of the simulated rollback,
or an `HTTPException`. -/
inductive RbOutcome where
  | rbSuccess (message : String)
  | rbError (status : Nat) (detail : String)
deriving Repr, DecidableEq

/-- `rollback_update` (routes/soup.py): scan the history for the first
record whose `version` field equals the argument; 404 when none matches;
otherwise append a `{action: rollback, status: simulated}` record and
return success — no live directory is touched. -/
def rollbackUpdate (st : SysState) (version : String) (now : String) :
    RbOutcome × SysState :=
  match st.history.find? (fun rec => rec.versionOf == some version) with
  | none => (.rbError 404 ("Version " ++ version ++ " not found"), st)
  | some _ =>
    (.rbSuccess ("Rollback to version " ++ version ++ " simulated"),
      { st with history := saveUpdateHistory st.history (.rollback now version "simulated") })

/-! ## Derived predicates on uploads, used to state claims -/

/-- An upload reaches the public key load of Step 4: the file name passes
the extension check, the artifact decrypts and unzips, manifest.json is
present and parses, every checksum passes, and signature.sig is present.
These are exactly the checks `apply_soup_update` performs before opening
routes/quorum_public.pem. -/
def reachesKeyLoad (symKey : Nat) (filename : String) (fileBytes : Bytes) : Bool :=
  strEndsWith filename ".soup" &&
    match fernetDecrypt symKey fileBytes with
    | none => false
    | some zipBytes =>
      match unzipArchive zipBytes with
      | none => false
      | some entries =>
        match lookupFile entries "manifest.json" with
        | none => false
        | some manifestBytes =>
          match decodeManifest manifestBytes with
          | none => false
          | some manifest =>
            (checksumLoop entries manifest.files).isNone &&
              (lookupFile entries "signature.sig").isSome

/-- The upload decodes as far as a parsed manifest but some manifest entry
is missing from the tree or fails its checksum. -/
def integrityViolated (symKey : Nat) (fileBytes : Bytes) : Bool :=
  match fernetDecrypt symKey fileBytes with
  | none => false
  | some zipBytes =>
    match unzipArchive zipBytes with
    | none => false
    | some entries =>
      match lookupFile entries "manifest.json" with
      | none => false
      | some manifestBytes =>
        match decodeManifest manifestBytes with
        | none => false
        | some manifest => (checksumLoop entries manifest.files).isSome

/-! ## Concrete fixtures -/

/-- A fresh deployment: empty live directories, empty history, public key
installed (key material 5). -/
def emptyState : SysState := ⟨[], [], [], [], some 5⟩

/-- A deployment whose routes/quorum_public.pem is absent. -/
def keylessState : SysState := ⟨[], [], [], [], none⟩

/-- Round-trip input: version 2.1.0, one rules file rule1.json holding the
bytes of the text with id 1, no models and no threat intel sources. -/
def c1inp : BuilderInput :=
  ⟨"2.1.0", "2025-01-01T00:00:00", none,
    some [⟨"rule1.json", [123, 34, 105, 100, 34, 58, 49, 125]⟩], none⟩

/-- The package the builder emits for c1inp under keypair 5 and shared
symmetric key 7. -/
def c1build : BuildResult := createPackage 5 7 c1inp

/-- Applying the c1 artifact on a fresh deployment holding the matching
public key and symmetric key. -/
def c1apply : ApplyResult :=
  match c1build with
  | .ok soupData _ artifactName => applySoupUpdate emptyState 7 artifactName soupData "t1"
  | .typeError => applySoupUpdate emptyState 7 "" [] "t1"

/-- The pre-signature staged tree of a minimal symmetric-intent package:
just an empty-file-list manifest. -/
def c2tree0 : List FileEntry := [⟨"manifest.json", encodeManifest ⟨"1.0", "t", []⟩⟩]

/-- The canonical archive bytes a builder signs for c2tree0. -/
def c2zip0 : Bytes := zipArchive c2tree0

/-- The signature the matching private key 5 produces over those canonical
archive bytes. -/
def c2sig : Bytes := rsaSign 5 c2zip0

/-- The artifact a symmetric builder would emit: the archive re-packed with
signature.sig included, encrypted under the shared key 7. -/
def c2soup : Bytes := fernetEncrypt 7 (zipArchive (c2tree0 ++ [⟨"signature.sig", c2sig⟩]))

/-- Applying the c2 artifact on a fresh deployment with the matching keys. -/
def c2apply : ApplyResult := applySoupUpdate emptyState 7 "update.soup" c2soup "t1"

/-- Builder input with a single rules file, for inspecting the emitted
artifact. -/
def c3inp : BuilderInput := ⟨"1.0", "t", none, some [⟨"r.json", [1]⟩], none⟩

/-- The package built from c3inp. -/
def c3build : BuildResult := createPackage 5 7 c3inp

/-- Decrypting the c3 artifact with the shared key and unpacking the
resulting archive. -/
def c3decoded : Option (List FileEntry) :=
  match c3build with
  | .ok soupData _ _ => (fernetDecrypt 7 soupData).bind unzipArchive
  | .typeError => none

/-- The members of the decrypted c3 archive. -/
def c3entries : List FileEntry := c3decoded.getD []

/-- A decryptable, unpackable package with no manifest.json. -/
def c4pkg : Bytes := fernetEncrypt 7 (zipArchive [⟨"x", [0]⟩])

/-- Another decryptable, unpackable package with no manifest.json. -/
def c5pkg : Bytes := fernetEncrypt 7 (zipArchive [⟨"y", [1]⟩])

/-- A well-formed package: manifest with an empty file list, a
signature.sig member present. -/
def c6pkg : Bytes :=
  fernetEncrypt 7 (zipArchive
    [⟨"manifest.json", encodeManifest ⟨"3.0", "t", []⟩⟩, ⟨"signature.sig", [9, 9]⟩])

/-- A deployment after one successful 2.1.0 update: one live model file and
one success record. -/
def c7state : SysState :=
  ⟨[⟨"old.pkl", [9]⟩], [], [],
    [.update "t0" "2.1.0" "quorum-update-2.1.0.soup" "success" ⟨["old.pkl"], [], []⟩],
    some 5⟩

/-- A package whose manifest lists rules/a.json with a wrong digest. -/
def c8pkg : Bytes :=
  fernetEncrypt 7 (zipArchive
    [⟨"manifest.json", encodeManifest ⟨"1.0", "t", [⟨"rules/a.json", [99]⟩]⟩⟩,
      ⟨"rules/a.json", [1]⟩])

/-- Whether an outcome is the 200 success body. -/
def Outcome.isOk : Outcome → Bool
  | .ok _ _ => true
  | _ => false

/-- Rules and threat intel sources mixing matching and non-matching file
names, for the staging-filter theorem. -/
def c10mixInp : BuilderInput :=
  ⟨"1.0", "t", none,
    some [⟨"a.json", [1]⟩, ⟨"b.txt", [2]⟩, ⟨"c.json", [3]⟩],
    some [⟨"d.json", [4]⟩, ⟨"e.yaml", [5]⟩]⟩

/-- A models source directory holding one .pkl file. -/
def c10modelsInp : BuilderInput :=
  ⟨"1.0", "t", some [⟨"model_a.pkl", [65, 66, 67]⟩], none, none⟩


/-! ## Claim theorems -/

/-- C1: the round-trip property fails on the code. Building a package from
the file set of c1inp (one rules file) with matching keypair 5 and shared
key 7 succeeds, but verifying and applying the resulting artifact with the
matching public key and symmetric key does not install anything and records
no UpdateRecord at all, let alone one with status success: the builder
never re-archives signature.sig into the zip it encrypts, so the verifier
rejects the upload with Missing signature file and the state is returned
unchanged. -/
theorem soup_roundtrip_fails_missing_embedded_signature :
    c1build ≠ .typeError ∧
    c1apply.outcome = .reject 400 "Missing signature file" ∧
    c1apply.state = emptyState ∧
    c1apply.state.history = [] := by decide

/-- C2: builder and verifier disagree on the signed object. For the
symmetric-intent package c2soup (archive re-packed with a signature.sig
that the matching private key 5 produced over the canonical pre-embedding
archive bytes c2zip0), the verifier reaches the signature step and passes
to verify_signature the bytes of the still-encrypted uploaded artifact —
which differ both from the canonical pre-embedding archive and from the
fully embedded archive — so verification fails even though the signature
is valid over the canonical archive bytes under the matching key. -/
theorem builder_verifier_sign_different_bytes :
    c2apply.sigCalls = [(c2soup, c2sig)] ∧
    rsaVerify 5 c2sig c2zip0 = true ∧
    c2soup ≠ c2zip0 ∧
    c2soup ≠ zipArchive (c2tree0 ++ [⟨"signature.sig", c2sig⟩]) ∧
    c2apply.outcome = .reject 400 "Invalid SOUP package signature" := by decide

/-- C3: the emitted artifact does not contain signature.sig. Decrypting the
c3 package with the shared key yields an archive whose root has
manifest.json and the rules subtree but no signature.sig member: the
builder writes signature.sig into the staging directory only after the zip
has been created and never re-archives. -/
theorem artifact_lacks_embedded_signature :
    c3build ≠ .typeError ∧
    c3decoded = some c3entries ∧
    lookupFile c3entries "manifest.json" ≠ none ∧
    lookupFile c3entries "rules/r.json" = some [1] ∧
    lookupFile c3entries "signature.sig" = none := by decide

/-- C4 counterexample: an update attempt that fails with a package-format
error (manifest.json absent) surfaces the rejection to the caller with no
UpdateRecord appended: the HTTPException is re-raised by the
except HTTPException arm, which skips save_update_history, so the history
stays empty. -/
theorem reject_paths_append_no_failed_record_counterexample :
    (applySoupUpdate emptyState 7 "pkg.soup" c4pkg "t1").outcome
      = .reject 400 "Invalid SOUP package: manifest.json not found" ∧
    (applySoupUpdate emptyState 7 "pkg.soup" c4pkg "t1").state.history = [] := by decide

/-- C4 amended: failures raised as HTTPException (missing manifest, missing
manifest-listed file, checksum mismatch, missing signature.sig, signature
verification failure, missing public key) are surfaced without appending
any UpdateRecord, while failures raised as generic exceptions (decryption
or unzip or manifest-parse failure) append exactly one UpdateRecord with
status failed naming the error before the 500 is surfaced. -/
theorem history_change_by_outcome (st : SysState) (symKey : Nat)
    (filename : String) (fileBytes : Bytes) (now : String) (r : ApplyResult)
    (h : applySoupUpdate st symKey filename fileBytes now = r) :
    (∀ s d, r.outcome = .reject s d → r.state.history = st.history) ∧
    (∀ e, r.outcome = .fail500 e →
      r.state.history = st.history ++ [.failedUpdate now filename e]) := by
  unfold applySoupUpdate at h
  repeat' split at h
  all_goals subst h
  all_goals simp [saveUpdateHistory]

/-- C4 amended, witnessed at the concrete missing-manifest package: the
rejection leaves the history of the fresh deployment unchanged. -/
theorem history_change_by_outcome_witness :
    (applySoupUpdate emptyState 7 "pkg2.soup" c4pkg "t1").state.history
      = emptyState.history :=
  (history_change_by_outcome emptyState 7 "pkg2.soup" c4pkg "t1" _ rfl).1
    400 "Invalid SOUP package: manifest.json not found" (by decide)

/-- C5 counterexample: on a rejection exit path (manifest.json absent) the
temporary extraction directory and the uploaded artifact file are both left
on disk — the cleanup lines run only on the success path. -/
theorem cleanup_missing_on_reject_counterexample :
    (applySoupUpdate emptyState 7 "q.soup" c5pkg "t1").outcome
      = .reject 400 "Invalid SOUP package: manifest.json not found" ∧
    (applySoupUpdate emptyState 7 "q.soup" c5pkg "t1").temp = ⟨true, true⟩ := by decide

/-- C5 amended: the temporary extraction directory and the uploaded
artifact are deleted on the success path only; on every failure exit after
the upload was saved (any upload whose name passes the .soup extension
check) both are left on disk, and on the extension rejection neither was
ever created. -/
theorem cleanup_only_on_success (st : SysState) (symKey : Nat)
    (filename : String) (fileBytes : Bytes) (now : String) (r : ApplyResult)
    (h : applySoupUpdate st symKey filename fileBytes now = r) :
    (r.outcome.isOk = true → r.temp = ⟨false, false⟩) ∧
    (strEndsWith filename ".soup" = false → r.temp = ⟨false, false⟩) ∧
    (strEndsWith filename ".soup" = true → r.outcome.isOk = false →
      r.temp = ⟨true, true⟩) := by
  unfold applySoupUpdate at h
  repeat' split at h
  all_goals subst h
  all_goals simp_all [Outcome.isOk]

/-- C5 amended, witnessed at the concrete missing-manifest package: the
failed run leaves both scratch files on disk. -/
theorem cleanup_only_on_success_witness :
    (applySoupUpdate emptyState 7 "q2.soup" c5pkg "t1").temp = ⟨true, true⟩ :=
  (cleanup_only_on_success emptyState 7 "q2.soup" c5pkg "t1" _ rfl).2.2
    (by decide) (by decide)

/-- C6: when routes/quorum_public.pem is absent, apply_soup_update never
copies a file into a live directory and never appends a success record; on
every well-formed package (one that passes the extension, decryption,
unpacking, manifest, checksum, and signature-presence checks) it aborts
with the fatal 500 configuration fault before any UpdateRecord is written,
leaving the state untouched. -/
theorem missing_public_key_aborts (st : SysState) (symKey : Nat)
    (filename : String) (fileBytes : Bytes) (now : String) (r : ApplyResult)
    (h : applySoupUpdate st symKey filename fileBytes now = r)
    (hk : st.publicKey = none) :
    r.state.modelsLive = st.modelsLive ∧ r.state.rulesLive = st.rulesLive ∧
    r.state.threatLive = st.threatLive ∧
    (∀ rec, rec ∈ r.state.history → rec.statusOf = "success" → rec ∈ st.history) ∧
    (reachesKeyLoad symKey filename fileBytes = true →
      r.outcome = .reject 500 pubKeyMissingDetail ∧ r.state = st) := by
  unfold applySoupUpdate at h
  repeat' split at h
  all_goals subst h
  all_goals simp_all [reachesKeyLoad, saveUpdateHistory, HistRecord.statusOf]
  all_goals rintro rec (hm | rfl) hs
  all_goals first
    | exact hm
    | simp at hs

/-- C6, witnessed at the concrete well-formed package c6pkg applied on a
deployment without the public key: the configuration fault is raised and
the state (history included) is unchanged. -/
theorem missing_public_key_aborts_witness :
    (applySoupUpdate keylessState 7 "u.soup" c6pkg "t1").outcome
        = .reject 500 pubKeyMissingDetail ∧
    (applySoupUpdate keylessState 7 "u.soup" c6pkg "t1").state = keylessState :=
  (missing_public_key_aborts keylessState 7 "u.soup" c6pkg "t1" _ rfl rfl).2.2.2.2
    (by decide)

/-- C7: rollback_update reports success while restoring no file. On a
deployment whose history holds a successful 2.1.0 update, rolling back to
2.1.0 returns the simulated-success body and appends a rollback record, yet
every live directory is exactly as before; the only unavailable-style error
it can produce is the 404 for a version absent from the history. -/
theorem rollback_reports_simulated_success :
    (rollbackUpdate c7state "2.1.0" "t1").1
      = .rbSuccess "Rollback to version 2.1.0 simulated" ∧
    (rollbackUpdate c7state "2.1.0" "t1").2.modelsLive = c7state.modelsLive ∧
    (rollbackUpdate c7state "2.1.0" "t1").2.rulesLive = c7state.rulesLive ∧
    (rollbackUpdate c7state "2.1.0" "t1").2.threatLive = c7state.threatLive ∧
    (rollbackUpdate c7state "2.1.0" "t1").2.history
      = c7state.history ++ [.rollback "t1" "2.1.0" "simulated"] ∧
    (rollbackUpdate c7state "9.9.9" "t1").1
      = .rbError 404 "Version 9.9.9 not found" := by decide

/-- C8: integrity is checked before authenticity. In every execution on an
upload whose manifest parses but lists a missing or checksum-mismatched
file, apply_soup_update makes no call to verify_signature. -/
theorem integrity_checked_before_signature (st : SysState) (symKey : Nat)
    (filename : String) (fileBytes : Bytes) (now : String) (r : ApplyResult)
    (h : applySoupUpdate st symKey filename fileBytes now = r)
    (hv : integrityViolated symKey fileBytes = true) :
    r.sigCalls = [] := by
  unfold applySoupUpdate at h
  repeat' split at h
  all_goals subst h
  all_goals simp_all [integrityViolated]

/-- C8, witnessed at the concrete package whose manifest lists rules/a.json
with a wrong digest: no verify_signature call is made. -/
theorem integrity_checked_before_signature_witness :
    (applySoupUpdate emptyState 7 "w.soup" c8pkg "t1").sigCalls = [] :=
  integrity_checked_before_signature emptyState 7 "w.soup" c8pkg "t1" _ rfl
    (by decide)

/-- C9: save_update_history extends the stored history by exactly one
record, leaving all existing records unchanged and in order, and a second
call appends a second independent record; concretely, applying the same
undecryptable package twice appends two independent failed UpdateRecord
entries, neither deduplicated nor rewritten. -/
theorem save_update_history_appends_one (history : List HistRecord) (rec : HistRecord) :
    saveUpdateHistory history rec = history ++ [rec] ∧
    (saveUpdateHistory history rec).length = history.length + 1 ∧
    (saveUpdateHistory history rec).take history.length = history ∧
    saveUpdateHistory (saveUpdateHistory history rec) rec = history ++ [rec, rec] ∧
    (applySoupUpdate (applySoupUpdate emptyState 7 "g.soup" [0] "t1").state
        7 "g.soup" [0] "t2").state.history
      = [.failedUpdate "t1" "g.soup" "InvalidToken",
          .failedUpdate "t2" "g.soup" "InvalidToken"] := by
  refine ⟨rfl, by simp [saveUpdateHistory], ?_, by simp [saveUpdateHistory], by decide⟩
  simp [saveUpdateHistory, List.take_left]

/-- C10: the staging filter never runs for the models category. On any
input whose models source directory exists, create_package raises TypeError
at the generator addition models_dir.glob(*.pkl) + models_dir.glob(*.tflite)
and stages nothing; for the rules and threat_intel categories the *.json
globs do hold, so non-matching files (b.txt, e.yaml) are silently omitted
from both the staged tree and the manifest. -/
theorem builder_models_glob_type_error :
    createPackage 5 7 c10modelsInp = .typeError ∧
    stageTree c10mixInp =
      [⟨"rules/a.json", [1]⟩, ⟨"rules/c.json", [3]⟩, ⟨"threat_intel/d.json", [4]⟩,
        ⟨"manifest.json", encodeManifest ⟨"1.0", "t",
          [⟨"rules/a.json", sha512Hash [1]⟩, ⟨"rules/c.json", sha512Hash [3]⟩,
            ⟨"threat_intel/d.json", sha512Hash [4]⟩]⟩⟩] := by decide
